import Mathlib

/-!
# Verification of the dispute reconciliation engine (`src/abstractWrappers/Disputes.js`)

Shallow embedding of the Disputes API: the ledger accessor (`Arbitrator`,
`ArbitrableContract`) and the remote store (`StoreProvider`) are modelled as
records of pure functions / explicit state, and each operation of the source
file is translated into a Lean function over that state.  Fallible ledger
reads return `Option` (with `none` standing for both a thrown access error and
a missing record, which the call sites of this file treat identically), and
operations whose JS counterpart can throw return `Except`.
-/

namespace KlerosDisputes

/-- Account / contract addresses, kept as raw strings as in the source. -/
abbrev Addr := String

/-- Modelled from the spec: `ethConstants.NULL_ADDRESS` (the constants module is
not under `src/`); the sentinel "null arbitrated-contract address" that marks
the end of the dispute-ID space. -/
def NULL_ADDRESS : Addr := "0x0000000000000000000000000000000000000000"

/-- Modelled from the spec: `arbitratorConstants.PERIOD.VOTE` (constants module
not under `src/`).  The concrete number is irrelevant to the claims. -/
def PERIOD_VOTE : Nat := 2

/-- Modelled from the spec: `arbitratorConstants.PERIOD.APPEAL` (constants
module not under `src/`).  The concrete number is irrelevant to the claims. -/
def PERIOD_APPEAL : Nat := 3

/-- Modelled from the spec: `notificationConstants.TYPE.APPEAL_POSSIBLE`
(constants module not under `src/`). -/
def TYPE_APPEAL_POSSIBLE : Nat := 4

/-- JS truthiness of an optional number (`if (x)`): `null`/`undefined` and `0`
are falsy, every other number is truthy. -/
def jsTruthy : Option Int → Bool
  | none => false
  | some n => n != 0

/-- JS `x ? x : 0` / `x || 0` on an optional number. -/
def jsNumOr0 : Option Int → Int
  | none => 0
  | some n => if n = 0 then 0 else n

/-- JS array index assignment `l[i] = v`: arrays are sparse, so assigning past
the end fills the gap with holes (`undefined`, modelled as `none`).  The length
of the result is `max (l.length) (i+1)`; an assignment never shortens. -/
def jsSet (l : List (Option α)) (i : Nat) (v : α) : List (Option α) :=
  if i < l.length then l.set i (some v)
  else l ++ List.replicate (i - l.length) none ++ [some v]

/-! ## Ledger data (Arbitrator / ArbitrableContract accessors) -/

/-- A dispute record as returned by `Arbitrator.getDispute`. -/
structure Dispute where
  arbitratedContract : Addr
  firstSession : Nat
  numberOfAppeals : Nat
  voteCounters : List (List Nat)
  arbitrationFeePerJuror : Int
  state : Nat
  status : Nat
deriving DecidableEq, Repr

/-- Result of `Arbitrator.getData`. -/
structure ArbitratorData where
  period : Nat
  session : Nat
  lastPeriodChange : Int
deriving DecidableEq, Repr

/-- The arbitrator (ledger) accessor, as a record of read functions.
`getDispute` returns `none` when the read fails or the record is absent. -/
structure Arbitrator where
  getDispute : Addr → Nat → Option Dispute
  getData : Addr → ArbitratorData
  getTimeForPeriod : Addr → Nat → Int
  currentRulingForDispute : Addr → Nat → Nat → Nat
  getAmountOfJurorsForDispute : Addr → Nat → Nat
  isJurorDrawnForDispute : Nat → Nat → Addr → Addr → Bool
  canRuleDispute : Option Addr → Nat → List Nat → Bool
  getSession : Addr → Nat

/-- Result of `ArbitrableContract.getData`. -/
structure ArbitrableContractData where
  partyA : Addr
  partyB : Addr
  status : Nat
deriving DecidableEq, Repr

/-- The arbitrable-contract accessor. -/
structure ArbitrableContracts where
  getData : Addr → ArbitrableContractData

/-! ## Store data (StoreProvider accessor)

The `StoreProvider` is an external collaborator (not under `src/`); its state
and operations are modelled from the spec's interface section: per-dispute
documents keyed by `(arbitratorAddress, disputeId)` carrying the
`appealCreatedAt`/`appealRuledAt` timestamp arrays, and per-account profiles
whose dispute records carry `appealDraws` and `netPNK`. -/

/-- A piece of evidence held in the store.  `url` stands for the evidence
payload fields that the read path must preserve; `submitter` is rewritten at
read time. -/
structure Evidence where
  submitter : Addr
  url : String
deriving DecidableEq, Repr

/-- Store-side metadata for an arbitrable contract
(`StoreProvider.getContractByAddress`). -/
structure ContractStoreData where
  evidences : List Evidence
  description : String
  email : String
deriving DecidableEq, Repr

/-- One dispute record inside a user profile. -/
structure ProfileDispute where
  arbitratorAddress : Addr
  disputeId : Nat
  appealDraws : Option (List (Option (List Nat)))
  netPNK : Option Int
deriving DecidableEq, Repr

/-- A user profile (`StoreProvider.getUserProfile`). -/
structure UserProfile where
  disputes : List ProfileDispute
  session : Nat
deriving DecidableEq, Repr

/-- The store-side per-dispute document written by
`StoreProvider.updateDispute`. -/
structure DisputeDoc where
  arbitratorAddress : Addr
  disputeId : Nat
  appealCreatedAt : List (Option Int)
  appealRuledAt : List (Option Int)
deriving DecidableEq, Repr

/-- A notification produced by `StoreProvider.newNotification`. -/
structure Notification where
  account : Addr
  txHash : String
  logIndexOrId : Nat
  ntype : Nat
  message : String
  disputeId : Nat
  contractAddress : Addr
  ruling : Nat
deriving DecidableEq, Repr

/-- Modelled from the spec: the whole state of the remote store. -/
structure Store where
  contracts : Addr → Addr → Option ContractStoreData
  profiles : Addr → UserProfile
  disputeDocs : List DisputeDoc
  notifications : List Notification

/-- Result of `StoreProvider.getDisputeData` (the participant-dispute store
record as the reconciliation engine sees it; every field may be absent). -/
structure StoredDisputeData where
  appealDraws : Option (List (Option (List Nat)))
  netPNK : Option Int
  appealCreatedAt : Option (List (Option Int))
  appealRuledAt : Option (List (Option Int))
deriving DecidableEq, Repr

/-- Find the profile dispute record with the given keys (the
`_.findIndex(userProfile.disputes, ...)` lookups of the source). -/
def findRecord : List ProfileDispute → Nat → Addr → Option ProfileDispute
  | [], _, _ => none
  | r :: rs, disputeId, arb =>
    if r.disputeId = disputeId ∧ r.arbitratorAddress = arb then some r
    else findRecord rs disputeId arb

/-- Replace the profile dispute record with the given keys, or append a new
one (the write performed by `StoreProvider.updateDisputeProfile`). -/
def upsertRecord
    : List ProfileDispute → Nat → Addr → Option (List (Option (List Nat))) → Int
      → List ProfileDispute
  | [], disputeId, arb, draws, pnk => [⟨arb, disputeId, draws, some pnk⟩]
  | r :: rs, disputeId, arb, draws, pnk =>
    if r.disputeId = disputeId ∧ r.arbitratorAddress = arb then
      ⟨arb, disputeId, draws, some pnk⟩ :: rs
    else r :: upsertRecord rs disputeId arb draws pnk

/-- Find the per-dispute store document with the given keys. -/
def findDoc : List DisputeDoc → Addr → Nat → Option DisputeDoc
  | [], _, _ => none
  | d :: ds, arb, disputeId =>
    if d.arbitratorAddress = arb ∧ d.disputeId = disputeId then some d
    else findDoc ds arb disputeId

/-- Replace the per-dispute store document with the given keys, or append a
new one (the write performed by `StoreProvider.updateDispute`). -/
def upsertDoc
    : List DisputeDoc → Addr → Nat → List (Option Int) → List (Option Int)
      → List DisputeDoc
  | [], arb, disputeId, ca, ra => [⟨arb, disputeId, ca, ra⟩]
  | d :: ds, arb, disputeId, ca, ra =>
    if d.arbitratorAddress = arb ∧ d.disputeId = disputeId then
      ⟨arb, disputeId, ca, ra⟩ :: ds
    else d :: upsertDoc ds arb disputeId ca ra

/-- Modelled from the spec: `StoreProvider.getDisputeData(arbitrator, id,
account)`.  Fails (returns `none`, a throw in JS) when the dispute has never
been added to the store; otherwise combines the dispute document's timestamp
arrays with the account's profile record (whose fields may be absent). -/
def Store.getDisputeData (S : Store) (arb : Addr) (disputeId : Nat) (account : Addr) :
    Option StoredDisputeData :=
  match findDoc S.disputeDocs arb disputeId with
  | none => none
  | some doc =>
    let record := findRecord (S.profiles account).disputes disputeId arb
    some ⟨record.bind ProfileDispute.appealDraws, record.bind ProfileDispute.netPNK,
          some doc.appealCreatedAt, some doc.appealRuledAt⟩

/-- Modelled from the spec: `StoreProvider.updateDispute` (only the fields the
reconciliation engine reads back are kept; the remaining arguments of the JS
call — title, status, information, justification, resolutionOptions — are
`undefined` at the only call site and are dropped). -/
def Store.updateDispute (S : Store) (disputeId : Nat) (arb : Addr)
    (appealCreatedAt appealRuledAt : List (Option Int)) : Store :=
  { S with disputeDocs := upsertDoc S.disputeDocs arb disputeId appealCreatedAt appealRuledAt }

/-- Modelled from the spec: `StoreProvider.updateDisputeProfile(account,
appealDraws, arbitratorAddress, disputeId, netPNK)`. -/
def Store.updateDisputeProfile (S : Store) (account : Addr)
    (appealDraws : Option (List (Option (List Nat)))) (arb : Addr) (disputeId : Nat)
    (netPNK : Int) : Store :=
  let p := S.profiles account
  let p' : UserProfile :=
    { p with disputes := upsertRecord p.disputes disputeId arb appealDraws netPNK }
  { S with profiles := fun a => if a = account then p' else S.profiles a }

/-- Modelled from the spec: `StoreProvider.newNotification`; appends the
notification and returns it. -/
def Store.newNotification (S : Store) (account : Addr) (txHash : String) (logIndexOrId : Nat)
    (ntype : Nat) (message : String) (disputeId : Nat) (contractAddress : Addr)
    (ruling : Nat) : Store × Notification :=
  let n : Notification :=
    ⟨account, txHash, logIndexOrId, ntype, message, disputeId, contractAddress, ruling⟩
  ({ S with notifications := S.notifications ++ [n] }, n)

/-! ## Operations of the Disputes API -/

/-- `getDeadlineForDispute`: `1000 * (lastPeriodChange + getTimeForPeriod(period))`. -/
def getDeadlineForDispute (A : Arbitrator) (arbitratorAddress : Addr) (period : Nat) : Int :=
  1000 * ((A.getData arbitratorAddress).lastPeriodChange
    + A.getTimeForPeriod arbitratorAddress period)

/-- The evidences of a party's store contract record
(`contractData ? contractData.evidences : []`). -/
def storedEvidences (S : Store) (party arbitrableContractAddress : Addr) : List Evidence :=
  match S.contracts party arbitrableContractAddress with
  | some c => c.evidences
  | none => []

/-- `getEvidenceForArbitrableContract`: fetch both parties' store contract
records, tag each evidence item with the corresponding ledger party address,
and concatenate partyA's evidence before partyB's. -/
def getEvidenceForArbitrableContract (AC : ArbitrableContracts) (S : Store)
    (arbitrableContractAddress : Addr) : List Evidence :=
  let arbitrableContractData := AC.getData arbitrableContractAddress
  let partyAEvidence :=
    (storedEvidences S arbitrableContractData.partyA arbitrableContractAddress).map
      fun (evidence : Evidence) =>
        { evidence with submitter := arbitrableContractData.partyA }
  let partyBEvidence :=
    (storedEvidences S arbitrableContractData.partyB arbitrableContractAddress).map
      fun (evidence : Evidence) =>
        { evidence with submitter := arbitrableContractData.partyB }
  partyAEvidence ++ partyBEvidence

/-- `getDrawsForJuror`: membership of `account` in each draw slot
`1..numberOfJurors` inclusive, collecting the matching slots in order. -/
def getDrawsForJuror (A : Arbitrator) (arbitratorAddress : Addr) (disputeId : Nat)
    (account : Addr) : List Nat :=
  let numberOfJurors := A.getAmountOfJurorsForDispute arbitratorAddress disputeId
  (List.range' 1 numberOfJurors).filter fun draw =>
    A.isJurorDrawnForDispute disputeId draw arbitratorAddress account

/-- One `appealRulings[appeal]` entry of the aggregated view. -/
structure AppealRulingInfo where
  ruling : Nat
  voteCounter : Option (List Nat)
  ruledAt : Option Int
  deadline : Int
deriving DecidableEq, Repr

/-- One `appealJuror[appeal]` entry of the aggregated view. -/
structure AppealJurorInfo where
  fee : Int
  draws : List Nat
  canRule : Bool
deriving DecidableEq, Repr

/-- The aggregated dispute view returned by `getDataForDispute`. -/
structure DisputeView where
  arbitrableContractAddress : Addr
  arbitrableContractStatus : Nat
  arbitratorAddress : Addr
  partyA : Addr
  partyB : Addr
  disputeId : Nat
  firstSession : Nat
  lastSession : Nat
  numberOfAppeals : Nat
  disputeState : Nat
  disputeStatus : Nat
  appealRulings : List AppealRulingInfo
  appealJuror : List AppealJurorInfo
  description : Option String
  email : Option String
  evidence : List Evidence
  netPNK : Int
  appealCreatedAt : List (Option Int)
  appealRuledAt : List (Option Int)
deriving DecidableEq, Repr

/-- The participant's store record fetch of `getDataForDispute`: absent
`account` or a failed `getDisputeData` (record not yet in the store) is
caught and yields `none`, leaving the zero-valued defaults in place. -/
def viewUserData (S : Store) (arbitratorAddress : Addr) (disputeId : Nat)
    (account : Option Addr) : Option StoredDisputeData :=
  match account with
  | none => none
  | some a => S.getDisputeData arbitratorAddress disputeId a

/-- The `appealDraws` local of `getDataForDispute`
(`userData.appealDraws || []`). -/
def viewAppealDraws (S : Store) (arbitratorAddress : Addr) (disputeId : Nat)
    (account : Option Addr) : List (Option (List Nat)) :=
  match viewUserData S arbitratorAddress disputeId account with
  | some u => u.appealDraws.getD []
  | none => []

/-- The `netPNK` local of `getDataForDispute` (`userData.netPNK || 0`). -/
def viewNetPNK (S : Store) (arbitratorAddress : Addr) (disputeId : Nat)
    (account : Option Addr) : Int :=
  match viewUserData S arbitratorAddress disputeId account with
  | some u => u.netPNK.getD 0
  | none => 0

/-- The `appealCreatedAt` local of `getDataForDispute`
(`userData.appealCreatedAt || []`). -/
def viewAppealCreatedAt (S : Store) (arbitratorAddress : Addr) (disputeId : Nat)
    (account : Option Addr) : List (Option Int) :=
  match viewUserData S arbitratorAddress disputeId account with
  | some u => u.appealCreatedAt.getD []
  | none => []

/-- The `appealRuledAt` local of `getDataForDispute`
(`userData.appealRuledAt || []`). -/
def viewAppealRuledAt (S : Store) (arbitratorAddress : Addr) (disputeId : Nat)
    (account : Option Addr) : List (Option Int) :=
  match viewUserData S arbitratorAddress disputeId account with
  | some u => u.appealRuledAt.getD []
  | none => []

/-- One iteration of the `appealRulings` loop of `getDataForDispute`. -/
def appealRulingEntry (A : Arbitrator) (arbitratorAddress : Addr) (disputeId : Nat)
    (dispute : Dispute) (appealRuledAt : List (Option Int)) (appeal : Nat) :
    AppealRulingInfo :=
  { ruling := A.currentRulingForDispute arbitratorAddress disputeId appeal
    voteCounter := dispute.voteCounters.get? appeal
    ruledAt := appealRuledAt.getD appeal none
    deadline := getDeadlineForDispute A arbitratorAddress appeal }

/-- One iteration of the `appealJuror` loop of `getDataForDispute`: the
eligibility oracle `canRuleDispute` is consulted only under
`appeal === lastSession && draws.length > 0`. -/
def appealJurorEntry (A : Arbitrator) (account : Option Addr) (disputeId : Nat)
    (dispute : Dispute) (appealDraws : List (Option (List Nat))) (appeal : Nat) :
    AppealJurorInfo :=
  let lastSession := dispute.firstSession + dispute.numberOfAppeals
  let draws := (appealDraws.getD appeal none).getD []
  let canRule : Bool :=
    if appeal = lastSession ∧ draws.length > 0 then
      A.canRuleDispute account disputeId draws
    else false
  { fee := dispute.arbitrationFeePerJuror * (draws.length : Int)
    draws := draws
    canRule := canRule }

/-- The body of `getDataForDispute` after the existence check on the ledger
dispute: everything past the `if (!dispute) throw` line. -/
def buildDisputeView (A : Arbitrator) (AC : ArbitrableContracts) (S : Store)
    (arbitratorAddress : Addr) (disputeId : Nat) (account : Option Addr)
    (dispute : Dispute) : DisputeView :=
  let arbitrableContractAddress := dispute.arbitratedContract
  let arbitrableContractData := AC.getData arbitrableContractAddress
  let constractStoreData :=
    S.contracts arbitrableContractData.partyA arbitrableContractAddress
  let appealDraws := viewAppealDraws S arbitratorAddress disputeId account
  let netPNK := viewNetPNK S arbitratorAddress disputeId account
  let appealCreatedAt := viewAppealCreatedAt S arbitratorAddress disputeId account
  let appealRuledAt := viewAppealRuledAt S arbitratorAddress disputeId account
  let evidence := getEvidenceForArbitrableContract AC S arbitrableContractAddress
  let firstSession := dispute.firstSession
  let lastSession := dispute.firstSession + dispute.numberOfAppeals
  -- NOTE arrays indexed by appeal number; the loop runs for
  -- `0 <= appeal <= lastSession - firstSession`
  let appealRulings : List AppealRulingInfo :=
    (List.range (lastSession - firstSession + 1)).map
      (appealRulingEntry A arbitratorAddress disputeId dispute appealRuledAt)
  let appealJuror : List AppealJurorInfo :=
    (List.range (lastSession - firstSession + 1)).map
      (appealJurorEntry A account disputeId dispute appealDraws)
  { arbitrableContractAddress := arbitrableContractAddress
    arbitrableContractStatus := arbitrableContractData.status
    arbitratorAddress := arbitratorAddress
    partyA := arbitrableContractData.partyA
    partyB := arbitrableContractData.partyB
    disputeId := disputeId
    firstSession := firstSession
    lastSession := lastSession
    numberOfAppeals := dispute.numberOfAppeals
    disputeState := dispute.state
    disputeStatus := dispute.status
    appealRulings := appealRulings
    appealJuror := appealJuror
    description := constractStoreData.map ContractStoreData.description
    email := constractStoreData.map ContractStoreData.email
    evidence := evidence
    netPNK := netPNK
    appealCreatedAt := appealCreatedAt
    appealRuledAt := appealRuledAt }

/-- The error message thrown by `getDataForDispute` for a missing dispute. -/
def disputeNotFoundMsg (arbitratorAddress : Addr) (disputeId : Nat) : String :=
  "Dispute with arbitrator: " ++ arbitratorAddress ++ " and disputeId: "
    ++ toString disputeId ++ " does not exist"

/-- `getDataForDispute`: fails when the ledger has no such dispute, otherwise
assembles the aggregated view. -/
def getDataForDispute (A : Arbitrator) (AC : ArbitrableContracts) (S : Store)
    (arbitratorAddress : Addr) (disputeId : Nat) (account : Option Addr) :
    Except String DisputeView :=
  match A.getDispute arbitratorAddress disputeId with
  | none => .error (disputeNotFoundMsg arbitratorAddress disputeId)
  | some dispute => .ok (buildDisputeView A AC S arbitratorAddress disputeId account dispute)

/-- `_updateStoreForDispute`: re-aggregate the dispute, set the
`createdAt`/`ruledAt` timestamp (when the argument is truthy) at index
`numberOfAppeals`, write the dispute document back, recompute the draws for
the current session, and write the profile record back. -/
def updateStoreForDispute (A : Arbitrator) (AC : ArbitrableContracts) (S : Store)
    (arbitratorAddress : Addr) (disputeId : Nat) (account : Addr)
    (createdAt ruledAt : Option Int) : Except String Store :=
  match getDataForDispute A AC S arbitratorAddress disputeId (some account) with
  | .error e => .error e
  | .ok disputeData =>
    let appealCreatedAt :=
      if jsTruthy createdAt then
        jsSet disputeData.appealCreatedAt disputeData.numberOfAppeals (createdAt.getD 0)
      else disputeData.appealCreatedAt
    let appealRuledAt :=
      if jsTruthy ruledAt then
        jsSet disputeData.appealRuledAt disputeData.numberOfAppeals (ruledAt.getD 0)
      else disputeData.appealRuledAt
    -- update dispute
    let S1 := S.updateDispute disputeData.disputeId disputeData.arbitratorAddress
      appealCreatedAt appealRuledAt
    match S1.getDisputeData arbitratorAddress disputeId account with
    | none => .error "store has no data for dispute"
    | some storedDisputeData =>
      let currentSession := A.getSession arbitratorAddress
      let appealDraws : Option (List (Option (List Nat))) :=
        if disputeData.lastSession = currentSession then
          let sessionDraws := getDrawsForJuror A arbitratorAddress disputeId account
          let base := storedDisputeData.appealDraws.getD []
          some (jsSet base disputeData.numberOfAppeals sessionDraws)
        else storedDisputeData.appealDraws
      -- update profile for account
      .ok (S1.updateDisputeProfile account appealDraws disputeData.arbitratorAddress
        disputeData.disputeId (if disputeData.netPNK = 0 then 0 else disputeData.netPNK))

/-- The scan loop of `getDisputesForJuror`, one fuel unit per iteration of the
`while (1)` loop (the JS loop has no bound of its own; the theorems supply
enough fuel to reach the sentinel).  A failed `getDispute` read is caught and
breaks the loop; so does the extra `getDispute` issued in the
session-mismatch branch before `continue`. -/
def getDisputesForJurorAux (A : Arbitrator) (arbitratorAddress : Addr) (account : Addr)
    (currentSession : Nat) : Nat → Nat → List Nat
  | 0, _ => []
  | fuel + 1, disputeId =>
    match A.getDispute arbitratorAddress disputeId with
    | none => []
    | some dispute =>
      if dispute.arbitratedContract = NULL_ADDRESS then []
      else
        -- session + number of appeals
        if dispute.firstSession + dispute.numberOfAppeals ≠ currentSession then
          match A.getDispute arbitratorAddress (disputeId + 1) with
          | none => []
          | some _ =>
            getDisputesForJurorAux A arbitratorAddress account currentSession fuel (disputeId + 1)
        else
          let draws := getDrawsForJuror A arbitratorAddress disputeId account
          (if draws.length > 0 then [disputeId] else [])
            ++ getDisputesForJurorAux A arbitratorAddress account currentSession fuel
                (disputeId + 1)

/-- `getDisputesForJuror`: linear scan from dispute 0 collecting the disputes
of the arbitrator's current session in which the account holds a draw. -/
def getDisputesForJuror (A : Arbitrator) (arbitratorAddress : Addr) (account : Addr)
    (fuel : Nat) : List Nat :=
  getDisputesForJurorAux A arbitratorAddress account
    ((A.getData arbitratorAddress).session) fuel 0

/-- A dispute ID at which the discovery scan stops: the ledger read fails, or
the record carries the null arbitrated-contract address. -/
def isSentinel (A : Arbitrator) (arbitratorAddress : Addr) (disputeId : Nat) : Bool :=
  match A.getDispute arbitratorAddress disputeId with
  | none => true
  | some dispute => dispute.arbitratedContract = NULL_ADDRESS

/-- A dispute is relevant to the juror scan: it exists, its
`firstSession + numberOfAppeals` equals the target session, and the account
holds at least one draw slot. -/
def relevantDispute (A : Arbitrator) (arbitratorAddress : Addr) (account : Addr)
    (currentSession : Nat) (disputeId : Nat) : Bool :=
  match A.getDispute arbitratorAddress disputeId with
  | none => false
  | some dispute =>
    dispute.firstSession + dispute.numberOfAppeals = currentSession
      ∧ (getDrawsForJuror A arbitratorAddress disputeId account).length > 0

/-- A raw token-shift event (`TokenShift(disputeId, account, amount)`). -/
structure TokenShiftEvent where
  disputeId : Nat
  account : Addr
  amount : Int
deriving DecidableEq, Repr

/-- `_tokenShiftHandler`: when the event's account is the listening address,
look the dispute up in the profile; if it is not tracked, ignore the event,
otherwise add the shift amount to the record's `netPNK` (absent treated
as 0). -/
def tokenShiftHandler (S : Store) (contractAddress : Addr) (address : Addr)
    (event : TokenShiftEvent) : Store :=
  if event.account = address then
    let userProfile := S.profiles address
    match findRecord userProfile.disputes event.disputeId contractAddress with
    | none => S
    | some dispute =>
      S.updateDisputeProfile address dispute.appealDraws dispute.arbitratorAddress
        dispute.disputeId (jsNumOr0 dispute.netPNK + event.amount)
  else S

/-- Sequential delivery of token-shift events for one tracked dispute, all
matching the listening account. -/
def applyShifts (S : Store) (contractAddress : Addr) (address : Addr) (disputeId : Nat)
    (amounts : List Int) : Store :=
  amounts.foldl
    (fun s amount => tokenShiftHandler s contractAddress address ⟨disputeId, address, amount⟩) S

/-- A thrown JS value: either an `Error` object or a plain string.  JS strict
equality `===` never identifies an `Error` object with a string, which is what
the outer `catch` of `_disputeRulingHandler` compares. -/
inductive JsErr where
  | errorObj : String → JsErr
  | str : String → JsErr
deriving DecidableEq, Repr

/-- The scan loop of `_disputeRulingHandler` (`NewPeriod` events).  A failed
`getDispute` read makes the inner `catch` throw `new Error('DisputeOutOfRange')`;
the outer `catch` breaks only when `err === 'DisputeOutOfRange'` — a strict
comparison of an `Error` object against a string literal, which is never true,
so the error propagates.  Returns the final store and the notifications
handed to the callback. -/
def disputeRulingScanAux (A : Arbitrator) (AC : ArbitrableContracts)
    (arbitratorAddress : Addr) (address : Addr) (userProfile : UserProfile)
    (txHash : String) (blockTimestamp : Int) (currentSession : Nat) :
    Nat → Nat → Store → Except JsErr (Store × List Notification)
  | 0, _, S => .ok (S, [])
  | fuel + 1, disputeId, S =>
    match A.getDispute arbitratorAddress disputeId with
    | none =>
      -- inner catch: `throw new Error('DisputeOutOfRange')`; outer catch:
      -- `err === 'DisputeOutOfRange'` is false for an Error object → rethrow
      if JsErr.errorObj "DisputeOutOfRange" = JsErr.str "DisputeOutOfRange" then .ok (S, [])
      else .error (JsErr.errorObj "DisputeOutOfRange")
    | some dispute =>
      if dispute.arbitratedContract = NULL_ADDRESS then .ok (S, [])
      else
        -- session + number of appeals
        if dispute.firstSession + dispute.numberOfAppeals ≠ currentSession then
          disputeRulingScanAux A AC arbitratorAddress address userProfile txHash
            blockTimestamp currentSession fuel (disputeId + 1) S
        else
          let ruling := A.currentRulingForDispute arbitratorAddress disputeId
            dispute.numberOfAppeals
          if (findRecord userProfile.disputes disputeId arbitratorAddress).isSome then
            let SN : Store × Notification :=
              S.newNotification address txHash disputeId TYPE_APPEAL_POSSIBLE
                "A ruling has been made. Appeal is possible" disputeId arbitratorAddress ruling
            -- add ruledAt to store
            match updateStoreForDispute A AC SN.1 arbitratorAddress disputeId address
                none (some (blockTimestamp * 1000)) with
            | .error e =>
              -- the thrown Error reaches the outer catch, which rethrows it
              .error (JsErr.errorObj e)
            | .ok S2 =>
              match disputeRulingScanAux A AC arbitratorAddress address userProfile txHash
                  blockTimestamp currentSession fuel (disputeId + 1) S2 with
              | .ok (S3, ns) => .ok (S3, SN.2 :: ns)
              | .error e => .error e
          else
            disputeRulingScanAux A AC arbitratorAddress address userProfile txHash
              blockTimestamp currentSession fuel (disputeId + 1) S

/-- `_disputeRulingHandler`: on a `NewPeriod` event entering the Appeal
period, scan the dispute space for disputes of the current session and notify
or update the tracked ones. -/
def disputeRulingHandler (A : Arbitrator) (AC : ArbitrableContracts) (S : Store)
    (contractAddress : Addr) (address : Addr) (newPeriod : Nat) (txHash : String)
    (blockTimestamp : Int) (fuel : Nat) : Except JsErr (Store × List Notification) :=
  if newPeriod = PERIOD_APPEAL then
    let userProfile := S.profiles address
    let arbitratorData := A.getData contractAddress
    disputeRulingScanAux A AC contractAddress address userProfile txHash blockTimestamp
      arbitratorData.session fuel 0 S
  else .ok (S, [])

/-! ## Observation helpers over the store state -/

/-- The `appealCreatedAt[k]` entry of the store document for a dispute. -/
def createdAtEntry (S : Store) (arb : Addr) (disputeId k : Nat) : Option Int :=
  match findDoc S.disputeDocs arb disputeId with
  | some d => d.appealCreatedAt.getD k none
  | none => none

/-- The `appealRuledAt[k]` entry of the store document for a dispute. -/
def ruledAtEntry (S : Store) (arb : Addr) (disputeId k : Nat) : Option Int :=
  match findDoc S.disputeDocs arb disputeId with
  | some d => d.appealRuledAt.getD k none
  | none => none

/-- Length of the stored `appealCreatedAt` array (0 when absent). -/
def createdAtLen (S : Store) (arb : Addr) (disputeId : Nat) : Nat :=
  match findDoc S.disputeDocs arb disputeId with
  | some d => d.appealCreatedAt.length
  | none => 0

/-- Length of the stored `appealRuledAt` array (0 when absent). -/
def ruledAtLen (S : Store) (arb : Addr) (disputeId : Nat) : Nat :=
  match findDoc S.disputeDocs arb disputeId with
  | some d => d.appealRuledAt.length
  | none => 0

/-- Length of the `appealDraws` array of an account's profile record
(0 when the record or the array is absent). -/
def drawsLen (S : Store) (account arb : Addr) (disputeId : Nat) : Nat :=
  match findRecord (S.profiles account).disputes disputeId arb with
  | some r => (r.appealDraws.getD []).length
  | none => 0

/-- The `netPNK` field of an account's profile record for a dispute. -/
def storedNetPNK (S : Store) (account arb : Addr) (disputeId : Nat) : Option Int :=
  (findRecord (S.profiles account).disputes disputeId arb).bind ProfileDispute.netPNK

/-! ## Concrete fixtures for witnesses and counterexamples -/

/-- Extract the store of a successful update, with a fallback for the error
case (used to name concrete results in closed statements). -/
def okStore (r : Except String Store) (fallback : Store) : Store :=
  match r with
  | .ok s => s
  | .error _ => fallback

/-- An all-default aggregated view, used as fallback when naming the result
of a concrete `getDataForDispute` call. -/
def fallbackView : DisputeView :=
  ⟨"", 0, "", "", "", 0, 0, 0, 0, 0, 0, [], [], none, none, [], 0, [], []⟩

/-- Extract the view of a successful aggregation, with a fallback for the
error case. -/
def viewOr (r : Except String DisputeView) (fallback : DisputeView) : DisputeView :=
  match r with
  | .ok v => v
  | .error _ => fallback

/-- A minimal arbitrable-contract accessor for concrete evaluations. -/
def exArbitrable : ArbitrableContracts := ⟨fun _ => ⟨"0xpartyA", "0xpartyB", 0⟩⟩

/-- An empty store for concrete evaluations. -/
def exEmptyStore : Store := ⟨fun _ _ => none, fun _ => ⟨[], 0⟩, [], []⟩

/-- A concrete ledger dispute: created in session 1, no appeals yet. -/
def exDispute1 : Dispute := ⟨"0xcontract", 1, 0, [[2, 3]], 10, 0, 0⟩

/-- A one-dispute ledger whose current session is 1 (the session of
`exDispute1`). -/
def exArb1 : Arbitrator :=
  ⟨fun _ disputeId => if disputeId = 0 then some exDispute1 else none,
   fun _ => ⟨PERIOD_VOTE, 1, 0⟩,
   fun _ _ => 0,
   fun _ _ _ => 0,
   fun _ _ => 0,
   fun _ _ _ _ => false,
   fun _ _ _ => false,
   fun _ => 1⟩

/-- A store already holding dispute 0 of `"0xarb"` with
`appealCreatedAt[0] = 5000` and a profile record tracking it. -/
def exStore1 : Store :=
  { exEmptyStore with
    disputeDocs := [⟨"0xarb", 0, [some 5000], []⟩]
    profiles := fun _ => ⟨[⟨"0xarb", 0, some [some [1]], none⟩], 1⟩ }

/-- The document of `exStore1` named for the witness hypotheses. -/
def exDoc1 : DisputeDoc := ⟨"0xarb", 0, [some 5000], []⟩

/-- A relevant dispute for the juror scan: active in session 1. -/
def exDrawn : Dispute := ⟨"0xc0", 1, 0, [], 0, 0, 0⟩

/-- A dispute the juror scan must skip: active in session 2. -/
def exSkipped : Dispute := ⟨"0xc1", 2, 0, [], 0, 0, 0⟩

/-- The end-of-space record: null arbitrated-contract address. -/
def exEnd : Dispute := ⟨NULL_ADDRESS, 0, 0, [], 0, 0, 0⟩

/-- A three-dispute ledger for the juror scan: dispute 0 is relevant to
`"0xme"` (draw slot 2 of 3), dispute 1 is in another session, dispute 2 is
the sentinel. -/
def exArb2 : Arbitrator :=
  ⟨fun _ disputeId =>
      if disputeId = 0 then some exDrawn
      else if disputeId = 1 then some exSkipped
      else if disputeId = 2 then some exEnd
      else none,
   fun _ => ⟨PERIOD_VOTE, 1, 0⟩,
   fun _ _ => 0,
   fun _ _ _ => 0,
   fun _ disputeId => if disputeId = 0 then 3 else 0,
   fun disputeId draw _ account => disputeId == 0 && draw == 2 && account == "0xme",
   fun _ _ _ => false,
   fun _ => 1⟩

/-- A store tracking dispute 12 of `"0xarb"` with no `netPNK` recorded yet. -/
def exStore3 : Store :=
  { exEmptyStore with profiles := fun _ => ⟨[⟨"0xarb", 12, none, none⟩], 0⟩ }

/-- A ledger on which every `getDispute` read fails. -/
def exArbFail : Arbitrator :=
  ⟨fun _ _ => none,
   fun _ => ⟨PERIOD_APPEAL, 1, 0⟩,
   fun _ _ => 0,
   fun _ _ _ => 0,
   fun _ _ => 0,
   fun _ _ _ _ => false,
   fun _ _ _ => false,
   fun _ => 1⟩

/-- A dispute with one appeal, created in session 0 (so its final appeal
index equals its `lastSession`). -/
def exDispute5 : Dispute := ⟨"0xcontract", 0, 1, [[1, 2], [3]], 10, 0, 0⟩

/-- A ledger holding `exDispute5` as dispute 7, whose eligibility oracle
always answers `true`. -/
def exArb5 : Arbitrator :=
  ⟨fun _ disputeId => if disputeId = 7 then some exDispute5 else none,
   fun _ => ⟨PERIOD_VOTE, 1, 0⟩,
   fun _ _ => 0,
   fun _ _ _ => 0,
   fun _ _ => 0,
   fun _ _ _ _ => false,
   fun _ _ _ => true,
   fun _ => 1⟩

/-- A store holding dispute 7 of `"0xarb"` with draws recorded for both
appeals of the participant. -/
def exStore5 : Store :=
  { exEmptyStore with
    disputeDocs := [⟨"0xarb", 7, [], []⟩]
    profiles := fun _ => ⟨[⟨"0xarb", 7, some [some [1], some [2]], none⟩], 0⟩ }

/-- The first appeal-juror entry of the concrete aggregation of dispute 7 on
`exArb5` (named so closed statements can mention it). -/
def exJuror5 : AppealJurorInfo :=
  (viewOr (getDataForDispute exArb5 exArbitrable exStore5 "0xarb" 7 (some "0xme"))
    fallbackView).appealJuror.getD 0 ⟨0, [], true⟩

/-! ## Helper lemmas -/

theorem jsNumOr0_eq_getD (o : Option Int) : jsNumOr0 o = o.getD 0 := by
  cases o with
  | none => rfl
  | some n =>
    simp only [jsNumOr0, Option.getD_some]
    split <;> omega

theorem jsSet_length_le (l : List (Option α)) (i : Nat) (v : α) :
    l.length ≤ (jsSet l i v).length := by
  unfold jsSet
  split
  · simp
  · simp only [List.length_append, List.length_replicate, List.length_singleton]
    omega

theorem jsSet_getD_self (l : List (Option α)) (i : Nat) (v : α) :
    (jsSet l i v).getD i none = some v := by
  unfold jsSet
  split
  · next h =>
    simp [List.getD_eq_getElem?_getD, List.getElem?_set_eq_of_lt, h]
  · next h =>
    have hlen : l.length ≤ i := by omega
    rw [List.getD_eq_getElem?_getD, List.append_assoc, List.getElem?_append_right hlen,
      List.getElem?_append_right (by simp [List.length_replicate])]
    simp [List.length_replicate]

theorem jsSet_getD_ne (l : List (Option α)) (i k : Nat) (v : α) (hk : k ≠ i) :
    (jsSet l i v).getD k none = l.getD k none := by
  unfold jsSet
  split
  · next h =>
    simp [List.getD_eq_getElem?_getD, List.getElem?_set_ne (fun he => hk he.symm)]
  · next h =>
    have hlen : i ≥ l.length := by omega
    rcases Nat.lt_or_ge k l.length with hkl | hkl
    · rw [List.getD_eq_getElem?_getD, List.getD_eq_getElem?_getD, List.append_assoc,
        List.getElem?_append, if_pos hkl]
    · rcases Nat.lt_or_ge k i with hki | hki
      · rw [List.getD_eq_getElem?_getD, List.append_assoc, List.getElem?_append_right hkl,
          List.getElem?_append, if_pos (by simp [List.length_replicate]; omega)]
        have hrep : (List.replicate (i - l.length) (none : Option α))[k - l.length]?
            = some none := by
          simp [List.getElem?_replicate]
          omega
        rw [hrep, List.getD_eq_getElem?_getD, List.getElem?_eq_none hkl]
        rfl
      · have hki' : i < k := by omega
        rw [List.getD_eq_getElem?_getD,
          List.getElem?_eq_none (by simp [List.length_replicate]; omega)]
        rw [List.getD_eq_getElem?_getD, List.getElem?_eq_none hkl]

theorem findDoc_upsertDoc (docs : List DisputeDoc) (arb : Addr) (disputeId : Nat)
    (ca ra : List (Option Int)) :
    findDoc (upsertDoc docs arb disputeId ca ra) arb disputeId
      = some ⟨arb, disputeId, ca, ra⟩ := by
  induction docs with
  | nil => simp [upsertDoc, findDoc]
  | cons d ds ih =>
    by_cases h : d.arbitratorAddress = arb ∧ d.disputeId = disputeId
    · simp [upsertDoc, findDoc, h]
    · simp [upsertDoc, findDoc, h, ih]

theorem findRecord_upsertRecord (recs : List ProfileDispute) (disputeId : Nat) (arb : Addr)
    (draws : Option (List (Option (List Nat)))) (pnk : Int) :
    findRecord (upsertRecord recs disputeId arb draws pnk) disputeId arb
      = some ⟨arb, disputeId, draws, some pnk⟩ := by
  induction recs with
  | nil => simp [upsertRecord, findRecord]
  | cons r rs ih =>
    by_cases h : r.disputeId = disputeId ∧ r.arbitratorAddress = arb
    · simp [upsertRecord, findRecord, h]
    · simp [upsertRecord, findRecord, h, ih]

theorem findRecord_keys {recs : List ProfileDispute} {disputeId : Nat} {arb : Addr}
    {r : ProfileDispute} (h : findRecord recs disputeId arb = some r) :
    r.disputeId = disputeId ∧ r.arbitratorAddress = arb := by
  induction recs with
  | nil => simp [findRecord] at h
  | cons x xs ih =>
    by_cases hx : x.disputeId = disputeId ∧ x.arbitratorAddress = arb
    · simp [findRecord, hx] at h
      subst h
      exact hx
    · simp [findRecord, hx] at h
      exact ih h

theorem getDataForDispute_ok_iff {A : Arbitrator} {AC : ArbitrableContracts} {S : Store}
    {arb : Addr} {disputeId : Nat} {account : Option Addr} {v : DisputeView} :
    getDataForDispute A AC S arb disputeId account = .ok v
      ↔ ∃ dispute, A.getDispute arb disputeId = some dispute
          ∧ v = buildDisputeView A AC S arb disputeId account dispute := by
  unfold getDataForDispute
  cases h : A.getDispute arb disputeId <;> simp
  exact eq_comm

theorem getDataForDispute_error {A : Arbitrator} {AC : ArbitrableContracts} {S : Store}
    {arb : Addr} {disputeId : Nat} {account : Option Addr}
    (h : A.getDispute arb disputeId = none) :
    getDataForDispute A AC S arb disputeId account
      = .error (disputeNotFoundMsg arb disputeId) := by
  unfold getDataForDispute
  rw [h]

theorem buildDisputeView_appealJuror (A : Arbitrator) (AC : ArbitrableContracts) (S : Store)
    (arb : Addr) (disputeId : Nat) (account : Option Addr) (dispute : Dispute) :
    (buildDisputeView A AC S arb disputeId account dispute).appealJuror
      = (List.range (dispute.numberOfAppeals + 1)).map
          (appealJurorEntry A account disputeId dispute
            (viewAppealDraws S arb disputeId account)) := by
  simp [buildDisputeView, Nat.add_sub_cancel_left]

theorem buildDisputeView_lastSession (A : Arbitrator) (AC : ArbitrableContracts) (S : Store)
    (arb : Addr) (disputeId : Nat) (account : Option Addr) (dispute : Dispute) :
    (buildDisputeView A AC S arb disputeId account dispute).lastSession
      = dispute.firstSession + dispute.numberOfAppeals := rfl

theorem viewStore_of_doc {S : Store} {arb : Addr} {disputeId : Nat} {account : Addr}
    {doc : DisputeDoc} (hdoc : findDoc S.disputeDocs arb disputeId = some doc) :
    viewAppealCreatedAt S arb disputeId (some account) = doc.appealCreatedAt
    ∧ viewAppealRuledAt S arb disputeId (some account) = doc.appealRuledAt
    ∧ viewAppealDraws S arb disputeId (some account)
        = ((findRecord (S.profiles account).disputes disputeId arb).bind
            ProfileDispute.appealDraws).getD []
    ∧ viewNetPNK S arb disputeId (some account)
        = ((findRecord (S.profiles account).disputes disputeId arb).bind
            ProfileDispute.netPNK).getD 0 := by
  unfold viewAppealCreatedAt viewAppealRuledAt viewAppealDraws viewNetPNK viewUserData
    Store.getDisputeData
  rw [hdoc]
  simp

theorem viewStore_of_noData {S : Store} {arb : Addr} {disputeId : Nat} {account : Addr}
    (h : S.getDisputeData arb disputeId account = none) :
    viewAppealCreatedAt S arb disputeId (some account) = []
    ∧ viewAppealRuledAt S arb disputeId (some account) = []
    ∧ viewAppealDraws S arb disputeId (some account) = []
    ∧ viewNetPNK S arb disputeId (some account) = 0 := by
  unfold viewAppealCreatedAt viewAppealRuledAt viewAppealDraws viewNetPNK viewUserData
  simp [h]

/-! ## Claim theorems -/

/-- C8: every aggregated dispute view returned by `getDataForDispute`
satisfies `lastSession = firstSession + numberOfAppeals`, with `firstSession`
and `numberOfAppeals` the values of the ledger's dispute record (which the
view carries verbatim). -/
theorem view_lastSession_eq (A : Arbitrator) (AC : ArbitrableContracts) (S : Store)
    (arb : Addr) (disputeId : Nat) (account : Option Addr) (v : DisputeView)
    (hok : getDataForDispute A AC S arb disputeId account = .ok v) :
    v.lastSession = v.firstSession + v.numberOfAppeals := by
  obtain ⟨dispute, -, rfl⟩ := getDataForDispute_ok_iff.mp hok
  rfl

/-- C8 witness: the concrete aggregation of dispute 0 on `exArb1`. -/
theorem view_lastSession_eq_witness :
    (viewOr (getDataForDispute exArb1 exArbitrable exStore1 "0xarb" 0 (some "0xme"))
        fallbackView).lastSession
      = (viewOr (getDataForDispute exArb1 exArbitrable exStore1 "0xarb" 0 (some "0xme"))
          fallbackView).firstSession
        + (viewOr (getDataForDispute exArb1 exArbitrable exStore1 "0xarb" 0 (some "0xme"))
            fallbackView).numberOfAppeals :=
  view_lastSession_eq exArb1 exArbitrable exStore1 "0xarb" 0 (some "0xme") _ rfl

/-- C10: a `createdAt` (resp. `ruledAt`) argument equal to `0` is falsy, so
`_updateStoreForDispute` treats it exactly like an absent argument: the whole
call computes the same result, and in particular no epoch-zero timestamp is
ever written to `appealCreatedAt`/`appealRuledAt`. -/
theorem updateStore_zero_timestamp_like_absent (A : Arbitrator) (AC : ArbitrableContracts)
    (S : Store) (arb : Addr) (disputeId : Nat) (account : Addr) (other : Option Int) :
    updateStoreForDispute A AC S arb disputeId account (some 0) other
        = updateStoreForDispute A AC S arb disputeId account none other
      ∧ updateStoreForDispute A AC S arb disputeId account other (some 0)
        = updateStoreForDispute A AC S arb disputeId account other none :=
  ⟨rfl, rfl⟩

/-- C6: `getDataForDispute` fails (NotFound) when the ledger has no such
dispute; a missing participant store record is not a failure and yields the
zero-valued defaults (`netPNK = 0`, empty timestamp arrays, empty draws in
every `appealJuror` entry). -/
theorem getDataForDispute_notFound_and_defaults (A : Arbitrator) (AC : ArbitrableContracts)
    (S : Store) (arb : Addr) (disputeId : Nat) (account : Addr) (v : DisputeView) :
    (A.getDispute arb disputeId = none →
      getDataForDispute A AC S arb disputeId (some account)
        = .error (disputeNotFoundMsg arb disputeId))
    ∧ (S.getDisputeData arb disputeId account = none →
        getDataForDispute A AC S arb disputeId (some account) = .ok v →
        v.netPNK = 0 ∧ v.appealCreatedAt = [] ∧ v.appealRuledAt = []
          ∧ ∀ e ∈ v.appealJuror, e.draws = []) := by
  constructor
  · exact getDataForDispute_error
  · intro habs hok
    obtain ⟨dispute, -, rfl⟩ := getDataForDispute_ok_iff.mp hok
    obtain ⟨hca, hra, hdr, hpnk⟩ := viewStore_of_noData habs
    refine ⟨hpnk, hca, hra, ?_⟩
    intro e he
    rw [buildDisputeView_appealJuror] at he
    obtain ⟨appeal, -, rfl⟩ := List.mem_map.mp he
    simp [appealJurorEntry, hdr]

/-- C6 witness: a failing ledger read yields the NotFound error, and a
missing store record yields `netPNK = 0` on a ledger that has the dispute. -/
theorem getDataForDispute_notFound_and_defaults_witness :
    getDataForDispute exArbFail exArbitrable exEmptyStore "0xarb" 0 (some "0xme")
        = .error (disputeNotFoundMsg "0xarb" 0)
      ∧ (viewOr (getDataForDispute exArb1 exArbitrable exEmptyStore "0xarb" 0 (some "0xme"))
          fallbackView).netPNK = 0 :=
  ⟨(getDataForDispute_notFound_and_defaults exArbFail exArbitrable exEmptyStore "0xarb" 0
      "0xme" fallbackView).1 rfl,
   ((getDataForDispute_notFound_and_defaults exArb1 exArbitrable exEmptyStore "0xarb" 0
      "0xme" _).2 rfl rfl).1⟩

theorem appealJuror_entry_eq {A : Arbitrator} {AC : ArbitrableContracts} {S : Store}
    {arb : Addr} {disputeId : Nat} {account : Option Addr} {dispute : Dispute}
    {k : Nat} {e : AppealJurorInfo} (hk : k < dispute.numberOfAppeals + 1)
    (hnth : (buildDisputeView A AC S arb disputeId account dispute).appealJuror[k]?
      = some e) :
    e = appealJurorEntry A account disputeId dispute
      (viewAppealDraws S arb disputeId account) k := by
  rw [buildDisputeView_appealJuror, List.getElem?_map, List.getElem?_range hk] at hnth
  simp at hnth
  exact hnth.symm

/-- C5: in every aggregated view, `canRule` is `false` unconditionally for
every appeal index before the final one; an entry with empty draws has
`canRule = false`; an entry for which the eligibility oracle answers `false`
has `canRule = false`; and when the final appeal's draws are empty the
eligibility oracle is not consulted at all (the whole view is independent of
the `canRuleDispute` oracle). -/
theorem canRule_policy (A : Arbitrator) (AC : ArbitrableContracts) (S : Store)
    (arb : Addr) (disputeId : Nat) (account : Option Addr) (v : DisputeView)
    (hok : getDataForDispute A AC S arb disputeId account = .ok v) :
    (∀ k e, k < v.numberOfAppeals → v.appealJuror[k]? = some e → e.canRule = false)
    ∧ (∀ e ∈ v.appealJuror, e.draws = [] → e.canRule = false)
    ∧ (∀ e ∈ v.appealJuror, A.canRuleDispute account disputeId e.draws = false →
        e.canRule = false)
    ∧ (∀ e, v.appealJuror[v.numberOfAppeals]? = some e → e.draws = [] →
        ∀ f, getDataForDispute { A with canRuleDispute := f } AC S arb disputeId account
          = .ok v) := by
  obtain ⟨dispute, hdisp, rfl⟩ := getDataForDispute_ok_iff.mp hok
  refine ⟨?_, ?_, ?_, ?_⟩
  · intro k e hk hnth
    have hk' : k < dispute.numberOfAppeals := hk
    have he := appealJuror_entry_eq (Nat.lt_succ_of_lt hk') hnth
    subst he
    simp only [appealJurorEntry, AppealJurorInfo.mk.injEq]
    rw [if_neg]
    rintro ⟨h1, -⟩
    omega
  · intro e he hdraws
    rw [buildDisputeView_appealJuror] at he
    obtain ⟨appeal, hmem, rfl⟩ := List.mem_map.mp he
    simp only [appealJurorEntry] at hdraws ⊢
    rw [hdraws]
    simp
  · intro e he ho
    rw [buildDisputeView_appealJuror] at he
    obtain ⟨appeal, hmem, rfl⟩ := List.mem_map.mp he
    simp only [appealJurorEntry] at ho ⊢
    split
    · exact ho
    · rfl
  · intro e hnth hdraws f
    have hnA : (buildDisputeView A AC S arb disputeId account dispute).numberOfAppeals
        = dispute.numberOfAppeals := rfl
    rw [hnA] at hnth
    have he := appealJuror_entry_eq (Nat.lt_succ_self _) hnth
    subst he
    simp only [appealJurorEntry] at hdraws
    have hmap : (List.range (dispute.firstSession + dispute.numberOfAppeals -
          dispute.firstSession + 1)).map
        (appealJurorEntry { A with canRuleDispute := f } account disputeId dispute
          (viewAppealDraws S arb disputeId account))
        = (List.range (dispute.firstSession + dispute.numberOfAppeals -
            dispute.firstSession + 1)).map
          (appealJurorEntry A account disputeId dispute
            (viewAppealDraws S arb disputeId account)) := by
      refine List.map_congr_left ?_
      intro appeal hmem
      rw [List.mem_range] at hmem
      simp only [appealJurorEntry]
      rw [if_neg, if_neg]
      · rintro ⟨h1, h2⟩
        have happ : appeal = dispute.numberOfAppeals := by omega
        rw [happ, hdraws] at h2
        simp at h2
      · rintro ⟨h1, h2⟩
        have happ : appeal = dispute.numberOfAppeals := by omega
        rw [happ, hdraws] at h2
        simp at h2
    unfold getDataForDispute
    rw [show ({ A with canRuleDispute := f } : Arbitrator).getDispute = A.getDispute from rfl,
      hdisp]
    refine congrArg Except.ok ?_
    simp only [buildDisputeView]
    rw [hmap]
    rfl

/-- C5 witness: on the concrete two-round dispute of `exArb5` (whose
eligibility oracle always answers true), the non-final appeal entry has
`canRule = false`. -/
theorem canRule_policy_witness : exJuror5.canRule = false :=
  (canRule_policy exArb5 exArbitrable exStore5 "0xarb" 7 (some "0xme") _ rfl).1 0 exJuror5
    (by decide) rfl

/-- C9: the evidence returned for an arbitrable contract is partyA's stored
evidence followed by partyB's (an absent record contributing an empty list):
the submitters are exactly the ledger party addresses, positionally, and the
evidence payloads are the stored ones in order. -/
theorem evidence_concat_attribution (AC : ArbitrableContracts) (S : Store) (addr : Addr) :
    (getEvidenceForArbitrableContract AC S addr).map Evidence.submitter
        = List.replicate (storedEvidences S (AC.getData addr).partyA addr).length
            (AC.getData addr).partyA
          ++ List.replicate (storedEvidences S (AC.getData addr).partyB addr).length
            (AC.getData addr).partyB
      ∧ (getEvidenceForArbitrableContract AC S addr).map Evidence.url
        = (storedEvidences S (AC.getData addr).partyA addr).map Evidence.url
          ++ (storedEvidences S (AC.getData addr).partyB addr).map Evidence.url := by
  unfold getEvidenceForArbitrableContract
  constructor
  · rw [List.map_append, List.map_map, List.map_map]
    congr 1
    · rw [show (Evidence.submitter ∘ fun (e : Evidence) =>
          { e with submitter := (AC.getData addr).partyA })
          = Function.const Evidence (AC.getData addr).partyA from rfl]
      exact List.map_const _ _
    · rw [show (Evidence.submitter ∘ fun (e : Evidence) =>
          { e with submitter := (AC.getData addr).partyB })
          = Function.const Evidence (AC.getData addr).partyB from rfl]
      exact List.map_const _ _
  · rw [List.map_append, List.map_map, List.map_map]
    congr 1

/-- C7: a token-shift event targeting the listening participant for a dispute
absent from the participant's profile performs no store write (the handler
returns the store unchanged, with no error), including when delivered
twice. -/
theorem tokenShift_untracked_noop (S : Store) (contractAddress address : Addr)
    (event : TokenShiftEvent) (hacct : event.account = address)
    (habsent : findRecord (S.profiles address).disputes event.disputeId contractAddress
      = none) :
    tokenShiftHandler S contractAddress address event = S
      ∧ tokenShiftHandler (tokenShiftHandler S contractAddress address event)
          contractAddress address event = S := by
  have h1 : tokenShiftHandler S contractAddress address event = S := by
    simp [tokenShiftHandler, hacct, habsent]
  exact ⟨h1, by rw [h1, h1]⟩

/-- C7 witness: a duplicate token shift of +50 for untracked dispute 12
leaves the empty store untouched both times. -/
theorem tokenShift_untracked_noop_witness :
    tokenShiftHandler exEmptyStore "0xarb" "0xme" ⟨12, "0xme", 50⟩ = exEmptyStore
      ∧ tokenShiftHandler (tokenShiftHandler exEmptyStore "0xarb" "0xme" ⟨12, "0xme", 50⟩)
          "0xarb" "0xme" ⟨12, "0xme", 50⟩ = exEmptyStore :=
  tokenShift_untracked_noop exEmptyStore "0xarb" "0xme" ⟨12, "0xme", 50⟩ rfl rfl

theorem applyShifts_netPNK {S : Store} {contractAddress address : Addr} {disputeId : Nat}
    {r : ProfileDispute}
    (h : findRecord (S.profiles address).disputes disputeId contractAddress = some r)
    (amounts : List Int) :
    storedNetPNK (applyShifts S contractAddress address disputeId amounts) address
        contractAddress disputeId
      = if amounts.isEmpty then r.netPNK
        else some (r.netPNK.getD 0 + amounts.sum) := by
  induction amounts generalizing S r with
  | nil => simp [applyShifts, storedNetPNK, h]
  | cons a as ih =>
    have hkeys := findRecord_keys h
    have hstep : tokenShiftHandler S contractAddress address ⟨disputeId, address, a⟩
        = S.updateDisputeProfile address r.appealDraws contractAddress disputeId
            (jsNumOr0 r.netPNK + a) := by
      simp [tokenShiftHandler, h, hkeys.1, hkeys.2]
    have hrec : findRecord
        ((tokenShiftHandler S contractAddress address
          ⟨disputeId, address, a⟩).profiles address).disputes disputeId contractAddress
        = some ⟨contractAddress, disputeId, r.appealDraws, some (jsNumOr0 r.netPNK + a)⟩ := by
      rw [hstep]
      unfold Store.updateDisputeProfile
      simp [findRecord_upsertRecord]
    have hfold : applyShifts S contractAddress address disputeId (a :: as)
        = applyShifts (tokenShiftHandler S contractAddress address ⟨disputeId, address, a⟩)
            contractAddress address disputeId as := rfl
    rw [hfold, ih hrec]
    rcases as with _ | ⟨b, bs⟩
    · simp [jsNumOr0_eq_getD]
    · simp only [List.isEmpty_cons, if_neg]
      simp [jsNumOr0_eq_getD]
      ring

/-- C3: the final `netPNK` of a tracked dispute record after a sequence of
matching token-shift events is the initial value (absent treated as 0) plus
the sum of all shift amounts, and it is therefore independent of the
delivery order of the shifts. -/
theorem netPNK_order_independent (S : Store) (contractAddress address : Addr)
    (disputeId : Nat) (r : ProfileDispute) (amounts amounts' : List Int)
    (h : findRecord (S.profiles address).disputes disputeId contractAddress = some r)
    (hperm : amounts.Perm amounts') :
    (storedNetPNK (applyShifts S contractAddress address disputeId amounts) address
        contractAddress disputeId).getD 0 = r.netPNK.getD 0 + amounts.sum
      ∧ storedNetPNK (applyShifts S contractAddress address disputeId amounts) address
          contractAddress disputeId
        = storedNetPNK (applyShifts S contractAddress address disputeId amounts') address
            contractAddress disputeId := by
  have h1 := applyShifts_netPNK h amounts
  have h2 := applyShifts_netPNK h amounts'
  have hemp : amounts.isEmpty = amounts'.isEmpty := by
    rcases amounts with _ | ⟨x, xs⟩
    · have he : amounts' = [] := List.perm_nil.mp hperm.symm
      rw [he]
    · rcases amounts' with _ | ⟨y, ys⟩
      · exact absurd (List.perm_nil.mp hperm) (by simp)
      · rfl
  constructor
  · rw [h1]
    rcases amounts with _ | ⟨x, xs⟩
    · simp
    · simp
  · rw [h1, h2, hperm.sum_eq, hemp]

/-- C3 witness: shifts `[5, -3]` and their permutation `[-3, 5]` applied to a
tracked dispute with no prior `netPNK` both end at `some 2`, equal to the sum. -/
theorem netPNK_order_independent_witness :
    (storedNetPNK (applyShifts exStore3 "0xarb" "0xme" 12 [5, -3]) "0xme" "0xarb" 12).getD 0
        = (none : Option Int).getD 0 + ([5, -3] : List Int).sum
      ∧ storedNetPNK (applyShifts exStore3 "0xarb" "0xme" 12 [5, -3]) "0xme" "0xarb" 12
        = storedNetPNK (applyShifts exStore3 "0xarb" "0xme" 12 [-3, 5]) "0xme" "0xarb" 12 :=
  netPNK_order_independent exStore3 "0xarb" "0xme" 12 ⟨"0xarb", 12, none, none⟩
    [5, -3] [-3, 5] rfl (by decide)

theorem not_sentinel_spec {A : Arbitrator} {arb : Addr} {d : Nat}
    (h : isSentinel A arb d = false) :
    ∃ dp, A.getDispute arb d = some dp ∧ dp.arbitratedContract ≠ NULL_ADDRESS := by
  unfold isSentinel at h
  cases hd : A.getDispute arb d with
  | none => rw [hd] at h; simp at h
  | some dp =>
    rw [hd] at h
    simp at h
    exact ⟨dp, rfl, h⟩

theorem sentinel_spec {A : Arbitrator} {arb : Addr} {d : Nat}
    (h : isSentinel A arb d = true) :
    A.getDispute arb d = none
      ∨ ∃ dp, A.getDispute arb d = some dp ∧ dp.arbitratedContract = NULL_ADDRESS := by
  unfold isSentinel at h
  cases hd : A.getDispute arb d with
  | none => exact Or.inl rfl
  | some dp =>
    rw [hd] at h
    simp at h
    exact Or.inr ⟨dp, rfl, h⟩

theorem getDrawsForJuror_pos_iff {A : Arbitrator} {arb : Addr} {disputeId : Nat}
    {account : Addr} :
    0 < (getDrawsForJuror A arb disputeId account).length ↔
      ∃ k, 1 ≤ k ∧ k ≤ A.getAmountOfJurorsForDispute arb disputeId
        ∧ A.isJurorDrawnForDispute disputeId k arb account = true := by
  unfold getDrawsForJuror
  rw [List.length_pos_iff_exists_mem]
  constructor
  · rintro ⟨k, hk⟩
    rw [List.mem_filter, List.mem_range'_1] at hk
    exact ⟨k, hk.1.1, by omega, hk.2⟩
  · rintro ⟨k, hk1, hk2, hkd⟩
    exact ⟨k, List.mem_filter.mpr ⟨List.mem_range'_1.mpr ⟨hk1, by omega⟩, hkd⟩⟩

theorem getDisputesForJurorAux_eq {A : Arbitrator} {arb account : Addr}
    {currentSession s : Nat}
    (hs : isSentinel A arb s = true) (hmin : ∀ d, d < s → isSentinel A arb d = false) :
    ∀ fuel start, start ≤ s → s - start < fuel →
      getDisputesForJurorAux A arb account currentSession fuel start
        = (List.range' start (s - start)).filter
            (relevantDispute A arb account currentSession) := by
  intro fuel
  induction fuel with
  | zero => intro start h1 h2; omega
  | succ fuel ih =>
    intro start hstart hfuel
    rcases Nat.eq_or_lt_of_le hstart with heq | hlt
    · subst heq
      rw [Nat.sub_self]
      rcases sentinel_spec hs with hn | ⟨dp, hd, hnull⟩
      · simp [getDisputesForJurorAux, hn]
      · simp [getDisputesForJurorAux, hd, hnull]
    · obtain ⟨dp, hd, hnn⟩ := not_sentinel_spec (hmin start hlt)
      have hrange : ∀ n, s - start = n + 1 →
          List.range' start (s - start) = start :: List.range' (start + 1) n := by
        intro n hn
        rw [hn, List.range'_succ]
      by_cases hsess : dp.firstSession + dp.numberOfAppeals = currentSession
      · have ihs := ih (start + 1) (by omega) (by omega)
        have hsub : s - (start + 1) = s - start - 1 := by omega
        rw [hsub] at ihs
        simp only [getDisputesForJurorAux, hd]
        rw [if_neg hnn, if_neg (not_not_intro hsess), ihs,
          hrange (s - start - 1) (by omega), List.filter_cons]
        by_cases hdr : 0 < (getDrawsForJuror A arb start account).length
        · have hrel : relevantDispute A arb account currentSession start = true := by
            simp [relevantDispute, hd, hsess, hdr]
          rw [hrel]
          simp [hdr]
        · have hrel : relevantDispute A arb account currentSession start = false := by
            simp [relevantDispute, hd, hsess, hdr]
          rw [hrel]
          simp [hdr]
      · have hrel : relevantDispute A arb account currentSession start = false := by
          simp [relevantDispute, hd, hsess]
        simp only [getDisputesForJurorAux, hd]
        rw [if_neg hnn, if_pos hsess, hrange (s - start - 1) (by omega),
          List.filter_cons, hrel]
        simp only [Bool.false_eq_true, if_false]
        rcases Nat.lt_or_ge (start + 1) s with hlt2 | hge2
        · obtain ⟨dp2, hd2, -⟩ := not_sentinel_spec (hmin (start + 1) hlt2)
          rw [hd2]
          have ihs := ih (start + 1) (by omega) (by omega)
          have hsub : s - (start + 1) = s - start - 1 := by omega
          rw [hsub] at ihs
          exact ihs
        · have htail : s - start - 1 = 0 := by omega
          rw [htail]
          cases hd2 : A.getDispute arb (start + 1) with
          | none => simp
          | some dp2 =>
            have haux := ih (start + 1) (by omega) (by omega)
            have hz : s - (start + 1) = 0 := by omega
            rw [hz] at haux
            simp [haux]

/-- C2: with a (first) sentinel at dispute ID `s` and enough fuel to reach
it, `getDisputesForJuror` terminates with exactly the dispute IDs below `s`
whose `firstSession + numberOfAppeals` equals the arbitrator's current
session and in which at least one draw slot in `1..numberOfJurors` inclusive
is drawn for the participant. -/
theorem getDisputesForJuror_correct (A : Arbitrator) (arb account : Addr) (s fuel : Nat)
    (hs : isSentinel A arb s = true) (hmin : ∀ d, d < s → isSentinel A arb d = false)
    (hfuel : s < fuel) :
    getDisputesForJuror A arb account fuel
        = (List.range s).filter (relevantDispute A arb account ((A.getData arb).session))
      ∧ ∀ d, d ∈ getDisputesForJuror A arb account fuel ↔
          d < s ∧ ∃ dp, A.getDispute arb d = some dp
            ∧ dp.firstSession + dp.numberOfAppeals = (A.getData arb).session
            ∧ ∃ k, 1 ≤ k ∧ k ≤ A.getAmountOfJurorsForDispute arb d
                ∧ A.isJurorDrawnForDispute d k arb account = true := by
  have hmain : getDisputesForJuror A arb account fuel
      = (List.range s).filter (relevantDispute A arb account ((A.getData arb).session)) := by
    unfold getDisputesForJuror
    rw [getDisputesForJurorAux_eq hs hmin fuel 0 (Nat.zero_le s) (by omega), Nat.sub_zero,
      List.range_eq_range']
  refine ⟨hmain, ?_⟩
  intro d
  rw [hmain, List.mem_filter, List.mem_range]
  constructor
  · rintro ⟨hdm, hrel⟩
    refine ⟨hdm, ?_⟩
    unfold relevantDispute at hrel
    cases hd : A.getDispute arb d with
    | none => rw [hd] at hrel; simp at hrel
    | some dp =>
      rw [hd] at hrel
      simp at hrel
      exact ⟨dp, rfl, hrel.1, getDrawsForJuror_pos_iff.mp hrel.2⟩
  · rintro ⟨hdm, dp, hd, hsess, hex⟩
    refine ⟨hdm, ?_⟩
    simp [relevantDispute, hd, hsess]
    exact getDrawsForJuror_pos_iff.mpr hex

/-- C2 witness: on the concrete three-dispute ledger `exArb2` (sentinel at
ID 2), the scan returns exactly `[0]`, the one session-1 dispute with a draw
for `"0xme"`. -/
theorem getDisputesForJuror_correct_witness :
    getDisputesForJuror exArb2 "0xarb" "0xme" 3
        = (List.range 2).filter
            (relevantDispute exArb2 "0xarb" "0xme" ((exArb2.getData "0xarb").session))
      ∧ getDisputesForJuror exArb2 "0xarb" "0xme" 3 = [0] :=
  ⟨(getDisputesForJuror_correct exArb2 "0xarb" "0xme" 2 3 (by decide) (by decide)
      (by decide)).1,
   by decide⟩

theorem drawsLen_eq_bind (S : Store) (account arb : Addr) (disputeId : Nat) :
    drawsLen S account arb disputeId
      = (((findRecord (S.profiles account).disputes disputeId arb).bind
          ProfileDispute.appealDraws).getD []).length := by
  unfold drawsLen
  cases findRecord (S.profiles account).disputes disputeId arb <;> simp

theorem findRecord_updateDisputeProfile (S : Store) (account : Addr)
    (draws : Option (List (Option (List Nat)))) (arb : Addr) (disputeId : Nat) (pnk : Int) :
    findRecord ((S.updateDisputeProfile account draws arb disputeId pnk).profiles
      account).disputes disputeId arb = some ⟨arb, disputeId, draws, some pnk⟩ := by
  unfold Store.updateDisputeProfile
  simp [findRecord_upsertRecord]

theorem updateStoreForDispute_spec {A : Arbitrator} {AC : ArbitrableContracts} {S S' : Store}
    {arb : Addr} {disputeId : Nat} {account : Addr} {doc : DisputeDoc} {dispute : Dispute}
    {createdAt ruledAt : Option Int}
    (hdoc : findDoc S.disputeDocs arb disputeId = some doc)
    (hdisp : A.getDispute arb disputeId = some dispute)
    (hok : updateStoreForDispute A AC S arb disputeId account createdAt ruledAt = .ok S') :
    findDoc S'.disputeDocs arb disputeId
      = some ⟨arb, disputeId,
          if jsTruthy createdAt then
            jsSet doc.appealCreatedAt dispute.numberOfAppeals (createdAt.getD 0)
          else doc.appealCreatedAt,
          if jsTruthy ruledAt then
            jsSet doc.appealRuledAt dispute.numberOfAppeals (ruledAt.getD 0)
          else doc.appealRuledAt⟩
    ∧ ∃ rec, findRecord (S'.profiles account).disputes disputeId arb = some rec
        ∧ rec.appealDraws
          = (if dispute.firstSession + dispute.numberOfAppeals = A.getSession arb then
              some (jsSet
                (((findRecord (S.profiles account).disputes disputeId arb).bind
                  ProfileDispute.appealDraws).getD [])
                dispute.numberOfAppeals (getDrawsForJuror A arb disputeId account))
            else (findRecord (S.profiles account).disputes disputeId arb).bind
              ProfileDispute.appealDraws) := by
  have hdd : getDataForDispute A AC S arb disputeId (some account)
      = .ok (buildDisputeView A AC S arb disputeId (some account) dispute) := by
    unfold getDataForDispute
    rw [hdisp]
  have hddca : (buildDisputeView A AC S arb disputeId (some account) dispute).appealCreatedAt
      = doc.appealCreatedAt := (viewStore_of_doc hdoc).1
  have hddra : (buildDisputeView A AC S arb disputeId (some account) dispute).appealRuledAt
      = doc.appealRuledAt := (viewStore_of_doc hdoc).2.1
  unfold updateStoreForDispute at hok
  rw [hdd] at hok
  dsimp only at hok
  rw [hddca, hddra] at hok
  have hddid : (buildDisputeView A AC S arb disputeId (some account) dispute).disputeId
      = disputeId := rfl
  have hddarb : (buildDisputeView A AC S arb disputeId
      (some account) dispute).arbitratorAddress = arb := rfl
  have hddnA : (buildDisputeView A AC S arb disputeId (some account) dispute).numberOfAppeals
      = dispute.numberOfAppeals := rfl
  have hddls : (buildDisputeView A AC S arb disputeId (some account) dispute).lastSession
      = dispute.firstSession + dispute.numberOfAppeals := rfl
  rw [hddid, hddarb, hddnA, hddls] at hok
  have hfd1 : findDoc (Store.updateDispute S disputeId arb
      (if jsTruthy createdAt then
        jsSet doc.appealCreatedAt dispute.numberOfAppeals (createdAt.getD 0)
      else doc.appealCreatedAt)
      (if jsTruthy ruledAt then
        jsSet doc.appealRuledAt dispute.numberOfAppeals (ruledAt.getD 0)
      else doc.appealRuledAt)).disputeDocs arb disputeId
      = some ⟨arb, disputeId,
          if jsTruthy createdAt then
            jsSet doc.appealCreatedAt dispute.numberOfAppeals (createdAt.getD 0)
          else doc.appealCreatedAt,
          if jsTruthy ruledAt then
            jsSet doc.appealRuledAt dispute.numberOfAppeals (ruledAt.getD 0)
          else doc.appealRuledAt⟩ :=
    findDoc_upsertDoc S.disputeDocs arb disputeId _ _
  have hgdd : Store.getDisputeData (Store.updateDispute S disputeId arb
      (if jsTruthy createdAt then
        jsSet doc.appealCreatedAt dispute.numberOfAppeals (createdAt.getD 0)
      else doc.appealCreatedAt)
      (if jsTruthy ruledAt then
        jsSet doc.appealRuledAt dispute.numberOfAppeals (ruledAt.getD 0)
      else doc.appealRuledAt)) arb disputeId account
      = some ⟨(findRecord (S.profiles account).disputes disputeId arb).bind
            ProfileDispute.appealDraws,
          (findRecord (S.profiles account).disputes disputeId arb).bind
            ProfileDispute.netPNK,
          some (if jsTruthy createdAt then
            jsSet doc.appealCreatedAt dispute.numberOfAppeals (createdAt.getD 0)
          else doc.appealCreatedAt),
          some (if jsTruthy ruledAt then
            jsSet doc.appealRuledAt dispute.numberOfAppeals (ruledAt.getD 0)
          else doc.appealRuledAt)⟩ := by
    unfold Store.getDisputeData
    rw [hfd1]
    rfl
  rw [hgdd] at hok
  dsimp only at hok
  injection hok with hS'
  subst hS'
  exact ⟨hfd1, _, findRecord_updateDisputeProfile _ _ _ _ _ _, rfl⟩

/-- C1 (amended): the merge performed by `_updateStoreForDispute` never
shortens the `appealCreatedAt`/`appealRuledAt`/`appealDraws` arrays and
leaves every timestamp entry at an index other than the dispute's current
`numberOfAppeals` unchanged; at index `numberOfAppeals` a falsy (absent or
zero) `createdAt`/`ruledAt` argument leaves the entry unchanged, while a
truthy argument unconditionally sets the entry to the argument's value —
overwriting any previously non-empty entry, so a previously set entry is
preserved exactly when the merged timestamp is absent or equal to it (as it
is when the same creation event is re-delivered). -/
theorem updateStore_merge_policy (A : Arbitrator) (AC : ArbitrableContracts) (S S' : Store)
    (arb : Addr) (disputeId : Nat) (account : Addr) (doc : DisputeDoc) (dispute : Dispute)
    (createdAt ruledAt : Option Int)
    (hdoc : findDoc S.disputeDocs arb disputeId = some doc)
    (hdisp : A.getDispute arb disputeId = some dispute)
    (hok : updateStoreForDispute A AC S arb disputeId account createdAt ruledAt = .ok S') :
    (∀ k, k ≠ dispute.numberOfAppeals →
        createdAtEntry S' arb disputeId k = createdAtEntry S arb disputeId k
          ∧ ruledAtEntry S' arb disputeId k = ruledAtEntry S arb disputeId k)
    ∧ createdAtLen S arb disputeId ≤ createdAtLen S' arb disputeId
    ∧ ruledAtLen S arb disputeId ≤ ruledAtLen S' arb disputeId
    ∧ drawsLen S account arb disputeId ≤ drawsLen S' account arb disputeId
    ∧ (jsTruthy createdAt = false →
        createdAtEntry S' arb disputeId dispute.numberOfAppeals
          = createdAtEntry S arb disputeId dispute.numberOfAppeals)
    ∧ (jsTruthy ruledAt = false →
        ruledAtEntry S' arb disputeId dispute.numberOfAppeals
          = ruledAtEntry S arb disputeId dispute.numberOfAppeals)
    ∧ (∀ t, createdAt = some t → jsTruthy createdAt = true →
        createdAtEntry S' arb disputeId dispute.numberOfAppeals = some t)
    ∧ (∀ t, ruledAt = some t → jsTruthy ruledAt = true →
        ruledAtEntry S' arb disputeId dispute.numberOfAppeals = some t) := by
  obtain ⟨hdoc', rec, hrec, hrdraws⟩ := updateStoreForDispute_spec hdoc hdisp hok
  have hCA : ∀ k, createdAtEntry S' arb disputeId k
      = (if jsTruthy createdAt then
          jsSet doc.appealCreatedAt dispute.numberOfAppeals (createdAt.getD 0)
        else doc.appealCreatedAt).getD k none := by
    intro k
    unfold createdAtEntry
    rw [hdoc']
  have hRA : ∀ k, ruledAtEntry S' arb disputeId k
      = (if jsTruthy ruledAt then
          jsSet doc.appealRuledAt dispute.numberOfAppeals (ruledAt.getD 0)
        else doc.appealRuledAt).getD k none := by
    intro k
    unfold ruledAtEntry
    rw [hdoc']
  have hCAS : ∀ k, createdAtEntry S arb disputeId k = doc.appealCreatedAt.getD k none := by
    intro k
    unfold createdAtEntry
    rw [hdoc]
  have hRAS : ∀ k, ruledAtEntry S arb disputeId k = doc.appealRuledAt.getD k none := by
    intro k
    unfold ruledAtEntry
    rw [hdoc]
  have hCALen : createdAtLen S arb disputeId = doc.appealCreatedAt.length := by
    unfold createdAtLen
    rw [hdoc]
  have hRALen : ruledAtLen S arb disputeId = doc.appealRuledAt.length := by
    unfold ruledAtLen
    rw [hdoc]
  have hCALen' : createdAtLen S' arb disputeId
      = (if jsTruthy createdAt then
          jsSet doc.appealCreatedAt dispute.numberOfAppeals (createdAt.getD 0)
        else doc.appealCreatedAt).length := by
    unfold createdAtLen
    rw [hdoc']
  have hRALen' : ruledAtLen S' arb disputeId
      = (if jsTruthy ruledAt then
          jsSet doc.appealRuledAt dispute.numberOfAppeals (ruledAt.getD 0)
        else doc.appealRuledAt).length := by
    unfold ruledAtLen
    rw [hdoc']
  refine ⟨?_, ?_, ?_, ?_, ?_, ?_, ?_, ?_⟩
  · intro k hk
    rw [hCA k, hRA k, hCAS k, hRAS k]
    constructor
    · split
      · exact jsSet_getD_ne _ _ _ _ hk
      · rfl
    · split
      · exact jsSet_getD_ne _ _ _ _ hk
      · rfl
  · rw [hCALen, hCALen']
    split
    · exact jsSet_length_le _ _ _
    · exact Nat.le_refl _
  · rw [hRALen, hRALen']
    split
    · exact jsSet_length_le _ _ _
    · exact Nat.le_refl _
  · have hlen' : drawsLen S' account arb disputeId = (rec.appealDraws.getD []).length := by
      unfold drawsLen
      rw [hrec]
    rw [hlen', hrdraws, drawsLen_eq_bind]
    split
    · simp only [Option.getD_some]
      exact jsSet_length_le _ _ _
    · exact Nat.le_refl _
  · intro hfalse
    rw [hCA _, hCAS _, if_neg (by simp [hfalse])]
  · intro hfalse
    rw [hRA _, hRAS _, if_neg (by simp [hfalse])]
  · intro t ht htrue
    rw [hCA _, if_pos (by simp [htrue]), jsSet_getD_self, ht]
    rfl
  · intro t ht htrue
    rw [hRA _, if_pos (by simp [htrue]), jsSet_getD_self, ht]
    rfl

/-- C1 counterexample: on `exStore1`, which already has
`appealCreatedAt[0] = 5000` for dispute 0 (whose current appeal index is 0),
merging a truthy `createdAt = 7000` overwrites the previously non-empty
entry: the claim that a non-empty `appealCreatedAt[k]` is left unchanged by
every merge is false on the code. -/
theorem updateStore_overwrite_counterexample :
    createdAtEntry exStore1 "0xarb" 0 0 = some 5000
      ∧ (updateStoreForDispute exArb1 exArbitrable exStore1 "0xarb" 0 "0xme"
          (some 7000) none).map (fun S' => createdAtEntry S' "0xarb" 0 0)
        = .ok (some 7000) := by
  constructor
  · rfl
  · rfl

/-- C1 witness (for the amended merge-policy theorem): the concrete merge of
`createdAt = 7000` on `exStore1` does not shorten the stored
`appealCreatedAt` array. -/
theorem updateStore_merge_policy_witness :
    createdAtLen exStore1 "0xarb" 0
      ≤ createdAtLen (okStore (updateStoreForDispute exArb1 exArbitrable exStore1 "0xarb" 0
          "0xme" (some 7000) none) exStore1) "0xarb" 0 :=
  (updateStore_merge_policy exArb1 exArbitrable exStore1
    (okStore (updateStoreForDispute exArb1 exArbitrable exStore1 "0xarb" 0 "0xme"
      (some 7000) none) exStore1)
    "0xarb" 0 "0xme" exDoc1 exDispute1 (some 7000) none rfl rfl rfl).2.1

/-- C4 (code bug): on a ledger where the very first `getDispute` read of the
scan fails, the NewPeriod/Appeal handler does not swallow the failure.  The
inner catch throws `new Error('DisputeOutOfRange')`, but the outer catch
compares that Error object against the string `'DisputeOutOfRange'` with
strict equality — never true for an object and a string — and rethrows, so
the access failure escapes the handler instead of terminating the scan as
end-of-space. -/
theorem disputeRulingHandler_propagates_failure :
    disputeRulingHandler exArbFail exArbitrable exEmptyStore "0xarb" "0xme" PERIOD_APPEAL
        "0xtx" 42 5
      = .error (JsErr.errorObj "DisputeOutOfRange") := rfl

end KlerosDisputes
